import Mathlib

/-!
Verification of the session and form-synchronization logic of
ns-puppetmaster.

This file is a shallow embedding of `src/nspuppetmaster/nspuppetmaster.py`
(the checkbox-aware variant driven by `main`) together with the parts of
`src/nspuppetmaster/utils.py` (`NsFormSender`) that the form-refresh
behaviour of the specification refers to.

Modelling conventions:

* Python dicts are insertion-ordered association lists with unique keys,
  built by `dictInsert` (overwrite in place, append when new).
* Python values appearing as form-parameter values are `PyVal`
  (`str`, `bool`, or `none`): overrides from the config may carry the
  boolean `False` removal sentinel.
* Python exceptions are `PyError`: `keyError` for a failed subscript,
  `typeError` for `{**None, ...}`, `appError` for the `AppError` class of
  the repository (the only application-defined exception).
* HTML parsing by BeautifulSoup is treated as an external capability:
  a fetched page is modelled by the list of `<input>` tags of its form,
  each an `InputTag` carrying an attribute list; the functions named
  `get_form_params_from_html` are embedded as their loops over those tags.
* HTTP and the filesystem are capabilities collected in `Env`; the
  observable effects of a call (GET, POST with the submitted body, the
  sleep, object construction, API login) are recorded in a trace of
  `Event`s.
-/

set_option autoImplicit false

namespace NsPuppetmaster

/-- Python values that occur as form-parameter values: strings scraped from
markup or configured overrides, the boolean removal sentinel `False`
(and `True`), and `None`. -/
inductive PyVal where
  | str (s : String)
  | bool (b : Bool)
  | none
deriving DecidableEq, Repr

/-- Python exceptions raised by the embedded code: `KeyError` from a failed
subscript, `TypeError` from `{**None, ...}`, and the `AppError` class of
the repository. -/
inductive PyError where
  | keyError (key : String)
  | typeError
  | appError (msg : String)
deriving DecidableEq, Repr

/-- Whether an error is an instance of the application-defined exception
class `AppError`; the `SessionError` and `AuthError` named by the
specification would be such application-level errors, while the built-in
`KeyError` and `TypeError` are not. -/
def PyError.isAppError : PyError → Bool
  | .appError _ => true
  | _ => false

/-- First value stored under key `k`, as in a Python dict lookup.  Dicts
built by `dictInsert` have unique keys, so this is the current value. -/
def dget? {α : Type} : List (String × α) → String → Option α
  | [], _ => Option.none
  | (k', v) :: rest, k => if k' = k then some v else dget? rest k

/-- Python dict assignment `d[k] = v`: overwrite the existing entry in
place, or append a new entry (insertion order preserved). -/
def dictInsert {α : Type} : List (String × α) → String → α → List (String × α)
  | [], k, v => [(k, v)]
  | (k', v') :: rest, k, v =>
    if k' = k then (k', v) :: rest else (k', v') :: dictInsert rest k v

/-- Python `{**a, **b}`: start from `a` and assign every item of `b` in
order, so the values of `b` win on key collision and the key positions of
`a` are kept. -/
def dictMerge {α : Type} (a b : List (String × α)) : List (String × α) :=
  b.foldl (fun acc kv => dictInsert acc kv.1 kv.2) a

/-- An `<input>` tag as exposed by BeautifulSoup: an attribute list.
A boolean HTML attribute such as `checked` is present with some string
value (possibly empty). -/
structure InputTag where
  attrs : List (String × String)
deriving DecidableEq, Repr

/-- Attribute lookup, `tag.get(k)` and `tag[k]`. -/
def InputTag.getAttr (t : InputTag) (k : String) : Option String :=
  dget? t.attrs k

/-- Embeds `tag.has_attr(k)`. -/
def InputTag.hasAttr (t : InputTag) (k : String) : Bool :=
  (t.getAttr k).isSome

/-- Constant `NATION_SETTINGS_URL`. -/
def NATION_SETTINGS_URL : String := "page=settings"

/-- Embeds `NS_URL.format(form_url=relative)`: the NationStates base
domain with the relative form URL substituted. -/
def nsUrl (relative : String) : String :=
  "https://www.nationstates.net/" ++ relative

/-- Constant `SETTINGS_UPDATE_SLEEP_TIME` (seconds). -/
def SETTINGS_UPDATE_SLEEP_TIME : Nat := 6

/-- One iteration of the tag loop in
`NsFormUpdater.get_form_params_from_html`: a checkbox contributes
`tag.get("value", "yes")` only when it has the `checked` attribute; any
other input contributes the `value` attribute only when present.
A contributing tag without a `name` attribute raises `KeyError`, exactly
as the subscript `tag["name"]` does. -/
def processTag (acc : List (String × PyVal)) (t : InputTag) :
    Except PyError (List (String × PyVal)) :=
  if t.getAttr "type" = some "checkbox" then
    if t.hasAttr "checked" then
      match t.getAttr "name" with
      | some n => .ok (dictInsert acc n (.str ((t.getAttr "value").getD "yes")))
      | Option.none => .error (.keyError "name")
    else .ok acc
  else
    match t.getAttr "value" with
    | some v =>
      match t.getAttr "name" with
      | some n => .ok (dictInsert acc n (.str v))
      | Option.none => .error (.keyError "name")
    | Option.none => .ok acc

/-- The tag loop of `NsFormUpdater.get_form_params_from_html`: fold
`processTag` over the tags, propagating the first exception. -/
def getFormParamsAux :
    List (String × PyVal) → List InputTag → Except PyError (List (String × PyVal))
  | acc, [] => .ok acc
  | acc, t :: rest =>
    match processTag acc t with
    | .error e => .error e
    | .ok acc' => getFormParamsAux acc' rest

/-- Embeds `NsFormUpdater.get_form_params_from_html`, applied to the input
tags of the named form of the page (markup parsing is the external
capability). -/
def NsFormUpdater.getFormParamsFromHtml (tags : List InputTag) :
    Except PyError (List (String × PyVal)) :=
  getFormParamsAux [] tags

/-- The entry (if any) that tag `t` would contribute for key `k` in the
loop of `get_form_params_from_html`; proof-side characterisation of
`processTag`. -/
def tagEntry (t : InputTag) (k : String) : Option PyVal :=
  if t.getAttr "name" = some k then
    if t.getAttr "type" = some "checkbox" then
      if t.hasAttr "checked" then some (.str ((t.getAttr "value").getD "yes"))
      else Option.none
    else
      match t.getAttr "value" with
      | some v => some (.str v)
      | Option.none => Option.none
  else Option.none

/-- Folds the per-tag contributions for key `k`, later tags overwriting
earlier ones, starting from `a`. -/
def lastContribAux (a : Option PyVal) (tags : List InputTag) (k : String) :
    Option PyVal :=
  match tags with
  | [] => a
  | t :: rest =>
    lastContribAux
      (match tagEntry t k with | some v => some v | Option.none => a) rest k

/-- Observable effects of the embedded code: object constructions in
`main`, the HTTP requests (the API login GET is summarised by `apiLogin`
with the nation name), and the sleep call. -/
inductive Event where
  | newApi
  | newFormUpdater
  | apiLogin (name : String)
  | httpGet (url : String)
  | httpPost (url : String) (body : List (String × PyVal))
  | sleep (seconds : Nat)
deriving DecidableEq, Repr

/-- External capabilities: file contents by path, the login response
headers for a (name, password) pair, and the input tags of the settings
form served for a given pin cookie value. -/
structure Env where
  fileContent : String → String
  loginHeaders : String → String → List (String × String)
  settingsPage : PyVal → List InputTag

/-- Embeds `NsApi.login`: the subscript on `resp.headers` returns the
value of the X-Pin header, raising `KeyError` when the header is
absent. -/
def NsApi.login (respHeaders : List (String × String)) : Except PyError String :=
  match dget? respHeaders "X-Pin" with
  | some pin => .ok pin
  | Option.none => .error (.keyError "X-Pin")

/-- State of an `NsFormUpdater` object: the cookie jar of the one HTTP
session, the resolved form URL and `current_params` (`None` until
`create_session` succeeds). -/
structure NsFormUpdater where
  userAgent : String
  formUrl : String
  cookies : List (String × PyVal)
  currentParams : Option (List (String × PyVal))
deriving DecidableEq, Repr

/-- Embeds `NsFormUpdater.set_form_url`. -/
def NsFormUpdater.setFormUrl (st : NsFormUpdater) (relative : String) : NsFormUpdater :=
  { st with formUrl := nsUrl relative }

/-- Embeds `NsFormUpdater.__init__`: a fresh session with an empty cookie
jar and `current_params = None`. -/
def NsFormUpdater.init (userAgent relative : String) : NsFormUpdater :=
  NsFormUpdater.setFormUrl
    { userAgent := userAgent, formUrl := "", cookies := [],
      currentParams := Option.none }
    relative

/-- Embeds `NsFormUpdater.create_session`: replace the cookie jar
wholesale with the single pin cookie (`cookiejar_from_dict`), GET the form
URL, and store the parsed form parameters as the new snapshot. -/
def NsFormUpdater.createSession (st : NsFormUpdater) (pin : PyVal) (env : Env) :
    Except PyError NsFormUpdater × List Event :=
  match NsFormUpdater.getFormParamsFromHtml (env.settingsPage pin) with
  | .error e => (.error e, [Event.httpGet st.formUrl])
  | .ok ps =>
    (.ok { st with cookies := [("pin", pin)], currentParams := some ps },
     [Event.httpGet st.formUrl])

/-- Python comparison `value != False` for an item of
`post_params.items()`: the lambda in `update_form` binds each
`(key, value)` TUPLE, and in Python a tuple never compares equal to a
bool, so the comparison is always true and the filter keeps every
item. -/
def itemNeFalse (_ : String × PyVal) : Bool := true

/-- Embeds `NsFormUpdater.update_form`: `{**self.current_params,
**new_params}` (a `TypeError` when `current_params` is still `None`), then
`dict(filter(lambda value : value != False, post_params.items()))`, then
POST the result and sleep for `SETTINGS_UPDATE_SLEEP_TIME` seconds.  The
POST response is discarded and the stored state is left unchanged. -/
def NsFormUpdater.updateForm (st : NsFormUpdater) (newParams : List (String × PyVal)) :
    Except PyError NsFormUpdater × List Event :=
  match st.currentParams with
  | Option.none => (.error .typeError, [])
  | some cur =>
    (.ok st,
     [Event.httpPost st.formUrl ((dictMerge cur newParams).filter itemNeFalse),
      Event.sleep SETTINGS_UPDATE_SLEEP_TIME])

/-- State of a `utils.NsFormSender` object: cookie jar, form URL and the
stored `localid` (`None` until `create_session` or `refresh_session`). -/
structure NsFormSender where
  userAgent : String
  formUrl : String
  cookies : List (String × PyVal)
  localid : PyVal
deriving DecidableEq, Repr

/-- One step of the dict comprehension in
`utils.NsFormSender.get_form_params_from_html`: keep every tag with a
`value` attribute; the subscript on a nameless valued tag raises
`KeyError`. -/
def senderProcessTag (acc : List (String × PyVal)) (t : InputTag) :
    Except PyError (List (String × PyVal)) :=
  match t.getAttr "value" with
  | some v =>
    match t.getAttr "name" with
    | some n => .ok (dictInsert acc n (.str v))
    | Option.none => .error (.keyError "name")
  | Option.none => .ok acc

/-- The comprehension loop of
`utils.NsFormSender.get_form_params_from_html`. -/
def senderFormParamsAux :
    List (String × PyVal) → List InputTag → Except PyError (List (String × PyVal))
  | acc, [] => .ok acc
  | acc, t :: rest =>
    match senderProcessTag acc t with
    | .error e => .error e
    | .ok acc' => senderFormParamsAux acc' rest

/-- Embeds `utils.NsFormSender.get_form_params_from_html`, over all input
tags of the page. -/
def NsFormSender.getFormParamsFromHtml (tags : List InputTag) :
    Except PyError (List (String × PyVal)) :=
  senderFormParamsAux [] tags

/-- Embeds `utils.NsFormSender.refresh_session`: re-parse the response
page and store the localid form parameter (a `KeyError` when the page has
none). -/
def NsFormSender.refreshSession (st : NsFormSender) (respPage : List InputTag) :
    Except PyError NsFormSender :=
  match NsFormSender.getFormParamsFromHtml respPage with
  | .error e => .error e
  | .ok fp =>
    match dget? fp "localid" with
    | some v => .ok { st with localid := v }
    | Option.none => .error (.keyError "localid")

/-- Embeds `utils.NsFormSender.send_form`: inject the stored localid into
the parameters, POST them, then refresh the session from the response. -/
def NsFormSender.sendForm (st : NsFormSender) (params : List (String × PyVal))
    (respPage : List InputTag) : Except PyError NsFormSender × List Event :=
  match NsFormSender.refreshSession st respPage with
  | .error e =>
    (.error e, [Event.httpPost st.formUrl (dictInsert params "localid" st.localid)])
  | .ok st2 =>
    (.ok st2, [Event.httpPost st.formUrl (dictInsert params "localid" st.localid)])

/-- One puppet group table from `config.toml`: the optional name sources,
the shared password and the optional override mapping. -/
structure GroupConfig where
  nation_name_file : Option String
  nation_names : Option (List String)
  password : Option String
  new_settings : Option (List (String × PyVal))

/-- Accumulating loop for `pySplitlines`: `acc` holds the reversed
characters of the line being read; a newline ends the line, and a newline
at the very end of the input starts no further line. -/
def splitlinesAux : List Char → List Char → List String
  | acc, [] => [String.mk acc.reverse]
  | acc, c :: cs =>
    if c = '\n' then
      match cs with
      | [] => [String.mk acc.reverse]
      | _ :: _ => String.mk acc.reverse :: splitlinesAux [] cs
    else splitlinesAux (c :: acc) cs

/-- Python `str.splitlines` restricted to `\n` newlines (the separator in
the name files the program reads): interior blank lines are kept and a
trailing newline produces no extra empty line. -/
def pySplitlines (s : String) : List String :=
  match s.data with
  | [] => []
  | cs => splitlinesAux [] cs

/-- Embeds `get_puppet_names_from_file`: read the file and split it into
lines. -/
def getPuppetNamesFromFile (env : Env) (filePath : String) : List String :=
  pySplitlines (env.fileContent filePath)

/-- Embeds `get_puppet_names`: the external name file takes priority, then
the inline list, else the `AppError` for a group without nation names. -/
def getPuppetNames (groupConfig : GroupConfig) (groupName : String) (env : Env) :
    Except PyError (List String) :=
  match groupConfig.nation_name_file with
  | some p => .ok (getPuppetNamesFromFile env p)
  | Option.none =>
    match groupConfig.nation_names with
    | some ns => .ok ns
    | Option.none =>
      .error (.appError ("Puppet group " ++ groupName ++ " does not have nation names"))

/-- State of an `NsPuppetUpdater` object: the shared form updater and the
last obtained pin. -/
structure NsPuppetUpdater where
  formUpdater : NsFormUpdater
  nationPin : Option String
deriving DecidableEq, Repr

/-- The value passed as `self.nation_pin` to `create_session`: the stored
pin, or Python `None` when `login` has never run. -/
def pinValOf (pin : Option String) : PyVal :=
  match pin with
  | some p => .str p
  | Option.none => .none

/-- Embeds `NsPuppetUpdater.login`: one API GET (recorded as `apiLogin`),
then store the pin taken from the X-Pin header. -/
def NsPuppetUpdater.login (pup : NsPuppetUpdater) (name password : String) (env : Env) :
    Except PyError NsPuppetUpdater × List Event :=
  match NsApi.login (env.loginHeaders name password) with
  | .error e => (.error e, [Event.apiLogin name])
  | .ok pin => (.ok { pup with nationPin := some pin }, [Event.apiLogin name])

/-- Embeds `NsPuppetUpdater.update_settings`: `create_session` with the
stored pin, then `update_form` with the new settings, both on the shared
form updater. -/
def NsPuppetUpdater.updateSettings (pup : NsPuppetUpdater)
    (settings : List (String × PyVal)) (env : Env) :
    Except PyError NsPuppetUpdater × List Event :=
  match NsFormUpdater.createSession pup.formUpdater (pinValOf pup.nationPin) env with
  | (.error e, tr) => (.error e, tr)
  | (.ok st, tr1) =>
    match NsFormUpdater.updateForm st settings with
    | (.error e, tr2) => (.error e, tr1 ++ tr2)
    | (.ok st2, tr2) => (.ok { pup with formUpdater := st2 }, tr1 ++ tr2)

/-- The per-nation loop of `update_puppet_group`: for each name, read the
group password, log in, and when the group has `new_settings` run
`update_settings`.  Any error aborts the run (nothing is caught). -/
def updateNations (cfg : GroupConfig) (names : List String) (pup : NsPuppetUpdater)
    (env : Env) : Except PyError NsPuppetUpdater × List Event :=
  match names with
  | [] => (.ok pup, [])
  | n :: rest =>
    match cfg.password with
    | Option.none => (.error (.keyError "password"), [])
    | some pw =>
      match NsPuppetUpdater.login pup n pw env with
      | (.error e, tr) => (.error e, tr)
      | (.ok pup2, tr1) =>
        match cfg.new_settings with
        | Option.none =>
          match updateNations cfg rest pup2 env with
          | (r, tr2) => (r, tr1 ++ tr2)
        | some s =>
          match NsPuppetUpdater.updateSettings pup2 s env with
          | (.error e, tr2) => (.error e, tr1 ++ tr2)
          | (.ok pup3, tr2) =>
            match updateNations cfg rest pup3 env with
            | (r, tr3) => (r, tr1 ++ tr2 ++ tr3)

/-- Embeds `update_puppet_group`: resolve the nation names of the group
(an error here happens before any login or form activity), then process
each nation. -/
def updatePuppetGroup (cfg : GroupConfig) (groupName : String) (pup : NsPuppetUpdater)
    (env : Env) : Except PyError NsPuppetUpdater × List Event :=
  match getPuppetNames cfg groupName env with
  | .error e => (.error e, [])
  | .ok names => updateNations cfg names pup env

/-- Embeds `update_puppet_groups`: process every configured group with the
same puppet updater object. -/
def updatePuppetGroups (groups : List (String × GroupConfig)) (pup : NsPuppetUpdater)
    (env : Env) : Except PyError NsPuppetUpdater × List Event :=
  match groups with
  | [] => (.ok pup, [])
  | (name, cfg) :: rest =>
    match updatePuppetGroup cfg name pup env with
    | (.error e, tr) => (.error e, tr)
    | (.ok pup2, tr1) =>
      match updatePuppetGroups rest pup2 env with
      | (r, tr2) => (r, tr1 ++ tr2)

/-- The loaded `config.toml`: the general user agent and the puppet
groups. -/
structure Config where
  userAgent : String
  puppets : List (String × GroupConfig)

/-- Embeds `main`: construct ONE `NsApi`, ONE `NsFormUpdater` (on the
settings URL) and ONE `NsPuppetUpdater`, then drive every group and every
account through the same objects. -/
def main (cfg : Config) (env : Env) : Except PyError NsPuppetUpdater × List Event :=
  match updatePuppetGroups cfg.puppets
      { formUpdater := NsFormUpdater.init cfg.userAgent NATION_SETTINGS_URL,
        nationPin := Option.none } env with
  | (r, tr) => (r, Event.newApi :: Event.newFormUpdater :: tr)

/-- Number of `NsFormUpdater` constructions recorded in a trace. -/
def countNewFormUpdater (tr : List Event) : Nat :=
  tr.countP (fun e => match e with | Event.newFormUpdater => true | _ => false)

/-- Number of API logins recorded in a trace. -/
def countApiLogin (tr : List Event) : Nat :=
  tr.countP (fun e => match e with | Event.apiLogin _ => true | _ => false)

/-- Concrete snapshot for the removal-sentinel failing input. -/
def snapshotC1 : List (String × PyVal) := [("flag", PyVal.str "1")]

/-- Ready form updater holding `snapshotC1`. -/
def updaterC1 : NsFormUpdater :=
  { userAgent := "ua", formUrl := nsUrl NATION_SETTINGS_URL,
    cookies := [("pin", PyVal.str "p")], currentParams := some snapshotC1 }

/-- Override carrying the Python `False` removal sentinel for a key that is
present in the snapshot. -/
def overrideC1 : List (String × PyVal) := [("flag", PyVal.bool false)]

/-- Ready form updater whose snapshot maps "a" to "1". -/
def updaterC2 : NsFormUpdater :=
  { userAgent := "ua", formUrl := nsUrl NATION_SETTINGS_URL,
    cookies := [("pin", PyVal.str "p")], currentParams := some [("a", PyVal.str "1")] }

/-- Response page whose form parses to a mapping different from the
snapshot of `updaterC2`. -/
def pageC2 : List InputTag :=
  [⟨[("type", "hidden"), ("name", "b"), ("value", "2")]⟩]

/-- Fresh form sender (localid still `None`). -/
def senderC2 : NsFormSender :=
  { userAgent := "ua", formUrl := nsUrl NATION_SETTINGS_URL,
    cookies := [("pin", PyVal.str "p")], localid := PyVal.none }

/-- Response page carrying a fresh localid token. -/
def pageC2resp : List InputTag :=
  [⟨[("type", "hidden"), ("name", "localid"), ("value", "L2")]⟩]

/-- Form markup with one unchecked checkbox, one checked checkbox without
a value attribute and one checked checkbox with a value attribute. -/
def tagsC4 : List InputTag :=
  [⟨[("type", "checkbox"), ("name", "optout")]⟩,
   ⟨[("type", "checkbox"), ("name", "box"), ("checked", "")]⟩,
   ⟨[("type", "checkbox"), ("name", "vbox"), ("checked", ""), ("value", "on")]⟩]

/-- Snapshot parsed from `tagsC4`. -/
def mC4 : List (String × PyVal) := [("box", PyVal.str "yes"), ("vbox", PyVal.str "on")]

/-- Environment for the orchestrator run with two accounts: every login
succeeds and the settings page has one hidden localid field. -/
def envC6 : Env :=
  { fileContent := fun _ => "",
    loginHeaders := fun n _ => [("X-Pin", n ++ "-pin")],
    settingsPage :=
      fun _ => [⟨[("type", "hidden"), ("name", "localid"), ("value", "L1")]⟩] }

/-- Group with two inline accounts and an override. -/
def groupC6 : GroupConfig :=
  { nation_name_file := Option.none, nation_names := some ["alice", "bob"],
    password := some "pw", new_settings := some [("email", PyVal.str "new@x")] }

/-- Config with the single two-account group. -/
def configC6 : Config := { userAgent := "ua", puppets := [("g", groupC6)] }

/-- Form updater with leftover cookie and snapshot from a previous
account. -/
def staleUpdaterC6 : NsFormUpdater :=
  { userAgent := "ua", formUrl := nsUrl NATION_SETTINGS_URL,
    cookies := [("pin", PyVal.str "old-pin")],
    currentParams := some [("leak", PyVal.str "secret")] }

/-- Freshly constructed form updater. -/
def freshUpdaterC6 : NsFormUpdater := NsFormUpdater.init "ua" NATION_SETTINGS_URL

/-- State produced by `create_session` on either updater under `envC6`. -/
def resultUpdaterC6 (st : NsFormUpdater) : NsFormUpdater :=
  { st with
    cookies := [("pin", PyVal.str "tok")],
    currentParams := some [("localid", PyVal.str "L1")] }

/-- Group defining neither an inline name list nor a name file. -/
def groupC7 : GroupConfig :=
  { nation_name_file := Option.none, nation_names := Option.none,
    password := some "pw", new_settings := Option.none }

/-- Puppet updater at process start. -/
def pupC7 : NsPuppetUpdater :=
  { formUpdater := NsFormUpdater.init "ua" NATION_SETTINGS_URL, nationPin := Option.none }

/-- Environment for the missing-names group (never reached). -/
def envC7 : Env :=
  { fileContent := fun _ => "", loginHeaders := fun _ _ => [],
    settingsPage := fun _ => [] }

/-- Ready form updater for the rate-limit witness. -/
def updaterC8 : NsFormUpdater :=
  { userAgent := "ua", formUrl := nsUrl NATION_SETTINGS_URL,
    cookies := [("pin", PyVal.str "p")], currentParams := some [("a", PyVal.str "1")] }

/-- Group defining BOTH an external name file and an inline name list. -/
def groupC9 : GroupConfig :=
  { nation_name_file := some "names.txt", nation_names := some ["inline-only"],
    password := some "pw", new_settings := Option.none }

/-- Environment whose name file holds two names around a blank line. -/
def envC9 : Env :=
  { fileContent := fun _ => "alice\n\nbob\n", loginHeaders := fun _ _ => [],
    settingsPage := fun _ => [] }

/-- Form markup with a non-checkbox input that has no value attribute next
to a valued one. -/
def tagsC10 : List InputTag :=
  [⟨[("type", "text"), ("name", "blank")]⟩,
   ⟨[("type", "hidden"), ("name", "h"), ("value", "v")]⟩]

/-- Snapshot parsed from `tagsC10`. -/
def mC10 : List (String × PyVal) := [("h", PyVal.str "v")]

theorem dget?_dictInsert {α : Type} (d : List (String × α)) (k : String) (v : α)
    (k' : String) :
    dget? (dictInsert d k v) k' = if k = k' then some v else dget? d k' := by
  induction d with
  | nil => simp [dictInsert, dget?]
  | cons hd tl ih =>
    obtain ⟨k₀, v₀⟩ := hd
    by_cases h₀ : k₀ = k
    · subst h₀
      simp only [dictInsert, if_pos rfl, dget?]
      by_cases h' : k₀ = k' <;> simp [h']
    · simp only [dictInsert, if_neg h₀, dget?]
      by_cases h' : k₀ = k'
      · have hne : ¬ k = k' := fun h => h₀ (h'.trans h.symm)
        simp [h', hne]
      · simp [h', ih]

theorem tagEntry_not_named (t : InputTag) (k : String)
    (h : ¬ t.getAttr "name" = some k) : tagEntry t k = Option.none := by
  simp [tagEntry, h]

theorem tagEntry_unchecked (t : InputTag) (k : String)
    (hc : t.getAttr "type" = some "checkbox") (hk : t.hasAttr "checked" = false) :
    tagEntry t k = Option.none := by
  by_cases hn : t.getAttr "name" = some k
  · simp [tagEntry, hn, hc, hk]
  · simp [tagEntry, hn]

theorem tagEntry_checked (t : InputTag) (k : String)
    (hn : t.getAttr "name" = some k) (hc : t.getAttr "type" = some "checkbox")
    (hk : t.hasAttr "checked" = true) :
    tagEntry t k = some (.str ((t.getAttr "value").getD "yes")) := by
  simp [tagEntry, hn, hc, hk]

theorem tagEntry_nonCheckbox_noValue (t : InputTag) (k : String)
    (hc : ¬ t.getAttr "type" = some "checkbox") (hv : t.getAttr "value" = Option.none) :
    tagEntry t k = Option.none := by
  by_cases hn : t.getAttr "name" = some k <;> simp [tagEntry, hn, hc, hv]

theorem tagEntry_nonCheckbox_value (t : InputTag) (k : String) (v : String)
    (hn : t.getAttr "name" = some k) (hc : ¬ t.getAttr "type" = some "checkbox")
    (hv : t.getAttr "value" = some v) :
    tagEntry t k = some (.str v) := by
  simp [tagEntry, hn, hc, hv]

theorem processTag_ok_dget (acc acc' : List (String × PyVal)) (t : InputTag) (k : String)
    (h : processTag acc t = .ok acc') :
    dget? acc' k =
      match tagEntry t k with
      | some v => some v
      | Option.none => dget? acc k := by
  by_cases hc : t.getAttr "type" = some "checkbox"
  · cases hk : t.hasAttr "checked" with
    | false =>
      simp [processTag, hc, hk] at h
      subst h
      rw [tagEntry_unchecked t k hc hk]
    | true =>
      cases hn : t.getAttr "name" with
      | none => simp [processTag, hc, hk, hn] at h
      | some n =>
        simp [processTag, hc, hk, hn] at h
        subst h
        rw [dget?_dictInsert]
        by_cases hnk : n = k
        · subst hnk
          rw [tagEntry_checked t n hn hc hk]
          simp
        · rw [tagEntry_not_named t k (by simp [hn, hnk])]
          simp [hnk]
  · cases hv : t.getAttr "value" with
    | none =>
      simp [processTag, hc, hv] at h
      subst h
      rw [tagEntry_nonCheckbox_noValue t k hc hv]
    | some v =>
      cases hn : t.getAttr "name" with
      | none => simp [processTag, hc, hv, hn] at h
      | some n =>
        simp [processTag, hc, hv, hn] at h
        subst h
        rw [dget?_dictInsert]
        by_cases hnk : n = k
        · subst hnk
          rw [tagEntry_nonCheckbox_value t n v hn hc hv]
          simp
        · rw [tagEntry_not_named t k (by simp [hn, hnk])]
          simp [hnk]

theorem getFormParamsAux_dget (tags : List InputTag) :
    ∀ (acc m : List (String × PyVal)) (k : String),
      getFormParamsAux acc tags = .ok m →
      dget? m k = lastContribAux (dget? acc k) tags k := by
  induction tags with
  | nil =>
    intro acc m k h
    simp only [getFormParamsAux] at h
    cases h
    rfl
  | cons t rest ih =>
    intro acc m k h
    simp only [getFormParamsAux] at h
    cases hp : processTag acc t with
    | error e => rw [hp] at h; simp at h
    | ok acc' =>
      rw [hp] at h
      simp only [] at h
      have hm := ih acc' m k h
      rw [hm]
      simp only [lastContribAux]
      congr 1
      exact processTag_ok_dget acc acc' t k hp

theorem lastContribAux_all_none (tags : List InputTag) (k : String) :
    ∀ a, (∀ t ∈ tags, tagEntry t k = Option.none) → lastContribAux a tags k = a := by
  induction tags with
  | nil => intro a _; rfl
  | cons t rest ih =>
    intro a h
    simp only [lastContribAux]
    rw [h t (List.mem_cons_self t rest)]
    exact ih a (fun t' ht' => h t' (List.mem_cons_of_mem t ht'))

theorem lastContribAux_const (tags : List InputTag) (k : String) (v : PyVal) :
    ∀ a, (∀ t ∈ tags, tagEntry t k = Option.none ∨ tagEntry t k = some v) →
      (∃ t ∈ tags, tagEntry t k = some v) →
      lastContribAux a tags k = some v := by
  induction tags with
  | nil =>
    intro a _ hex
    rcases hex with ⟨t, ht, _⟩
    exact absurd ht (List.not_mem_nil t)
  | cons t rest ih =>
    intro a hall hex
    simp only [lastContribAux]
    by_cases hrest : ∃ t' ∈ rest, tagEntry t' k = some v
    · exact ih _ (fun t' ht' => hall t' (List.mem_cons_of_mem t ht')) hrest
    · have hhead : tagEntry t k = some v := by
        rcases hex with ⟨t', ht', he'⟩
        rcases List.mem_cons.mp ht' with h1 | h2
        · subst h1; exact he'
        · exact absurd ⟨t', h2, he'⟩ hrest
      have hrnone : ∀ t' ∈ rest, tagEntry t' k = Option.none := by
        intro t' ht'
        rcases hall t' (List.mem_cons_of_mem t ht') with h1 | h1
        · exact h1
        · exact absurd ⟨t', ht', h1⟩ hrest
      rw [hhead]
      exact lastContribAux_all_none rest k _ hrnone

/-- C4: for every parsed form markup, a checkbox that is absent or not
marked checked never appears in the resulting snapshot; a checked checkbox
with no explicit value attribute is mapped to the default value "yes"; and
a checked checkbox carrying a value attribute is mapped to that value. -/
theorem c4_checkbox_extraction (tags : List InputTag) (m : List (String × PyVal))
    (k : String) (hok : NsFormUpdater.getFormParamsFromHtml tags = .ok m) :
    ((∀ t ∈ tags, t.getAttr "name" = some k →
        t.getAttr "type" = some "checkbox" ∧ t.hasAttr "checked" = false) →
      dget? m k = Option.none)
    ∧ ((∃ t ∈ tags, t.getAttr "name" = some k) →
        (∀ t ∈ tags, t.getAttr "name" = some k →
          t.getAttr "type" = some "checkbox" ∧ t.hasAttr "checked" = true ∧
            t.getAttr "value" = Option.none) →
        dget? m k = some (PyVal.str "yes"))
    ∧ (∀ v : String, (∃ t ∈ tags, t.getAttr "name" = some k) →
        (∀ t ∈ tags, t.getAttr "name" = some k →
          t.getAttr "type" = some "checkbox" ∧ t.hasAttr "checked" = true ∧
            t.getAttr "value" = some v) →
        dget? m k = some (PyVal.str v)) := by
  have hchar : dget? m k = lastContribAux Option.none tags k :=
    getFormParamsAux_dget tags [] m k hok
  refine ⟨?_, ?_, ?_⟩
  · intro hall
    rw [hchar]
    apply lastContribAux_all_none
    intro t ht
    by_cases hn : t.getAttr "name" = some k
    · obtain ⟨hc, hk⟩ := hall t ht hn
      exact tagEntry_unchecked t k hc hk
    · exact tagEntry_not_named t k hn
  · intro hex hall
    rw [hchar]
    apply lastContribAux_const
    · intro t ht
      by_cases hn : t.getAttr "name" = some k
      · obtain ⟨hc, hk, hv⟩ := hall t ht hn
        right
        rw [tagEntry_checked t k hn hc hk, hv]
        rfl
      · left
        exact tagEntry_not_named t k hn
    · rcases hex with ⟨t, ht, hn⟩
      obtain ⟨hc, hk, hv⟩ := hall t ht hn
      exact ⟨t, ht, by rw [tagEntry_checked t k hn hc hk, hv]; rfl⟩
  · intro v hex hall
    rw [hchar]
    apply lastContribAux_const
    · intro t ht
      by_cases hn : t.getAttr "name" = some k
      · obtain ⟨hc, hk, hv⟩ := hall t ht hn
        right
        rw [tagEntry_checked t k hn hc hk, hv]
        rfl
      · left
        exact tagEntry_not_named t k hn
    · rcases hex with ⟨t, ht, hn⟩
      obtain ⟨hc, hk, hv⟩ := hall t ht hn
      exact ⟨t, ht, by rw [tagEntry_checked t k hn hc hk, hv]; rfl⟩

/-- Witness for C4 on a concrete form markup: the unchecked checkbox is
absent from the snapshot, the checked one without a value maps to "yes",
and the checked one with a value maps to that value. -/
theorem c4_witness :
    NsFormUpdater.getFormParamsFromHtml tagsC4 = .ok mC4 ∧
    dget? mC4 "optout" = Option.none ∧
    dget? mC4 "box" = some (PyVal.str "yes") ∧
    dget? mC4 "vbox" = some (PyVal.str "on") := by
  refine ⟨rfl, ?_, ?_, ?_⟩
  · exact (c4_checkbox_extraction tagsC4 mC4 "optout" rfl).1 (by decide)
  · exact (c4_checkbox_extraction tagsC4 mC4 "box" rfl).2.1 (by decide) (by decide)
  · exact (c4_checkbox_extraction tagsC4 mC4 "vbox" rfl).2.2 "on" (by decide) (by decide)

/-- C10: for every parsed form markup, a non-checkbox input without a
value attribute contributes nothing, so a key all of whose tags are
non-checkbox inputs without a value attribute is absent from the
snapshot. -/
theorem c10_unvalued_input_omitted (tags : List InputTag) (m : List (String × PyVal))
    (k : String) (hok : NsFormUpdater.getFormParamsFromHtml tags = .ok m)
    (hall : ∀ t ∈ tags, t.getAttr "name" = some k →
      ¬ t.getAttr "type" = some "checkbox" ∧ t.getAttr "value" = Option.none) :
    dget? m k = Option.none := by
  rw [getFormParamsAux_dget tags [] m k hok]
  apply lastContribAux_all_none
  intro t ht
  by_cases hn : t.getAttr "name" = some k
  · obtain ⟨hc, hv⟩ := hall t ht hn
    exact tagEntry_nonCheckbox_noValue t k hc hv
  · exact tagEntry_not_named t k hn

/-- Witness for C10 on a concrete form markup: the text input without a
value attribute is absent from the snapshot. -/
theorem c10_witness :
    NsFormUpdater.getFormParamsFromHtml tagsC10 = .ok mC10 ∧
    dget? mC10 "blank" = Option.none :=
  ⟨rfl, c10_unvalued_input_omitted tagsC10 mC10 "blank" rfl (by decide)⟩

/-- C1 (code bug evaluated at the failing input): with snapshot
`{"flag": "1"}` and override `{"flag": False}`, `update_form` POSTs a body
that still contains the key "flag" with the Python `False` sentinel — the
filter in line 120 compares each `(key, value)` tuple with `False`, which
is never equal, so the removal the claim (and the comment in line 119)
describes never happens. -/
theorem c1_sentinel_not_removed :
    NsFormUpdater.updateForm updaterC1 overrideC1 =
      (.ok updaterC1,
       [Event.httpPost updaterC1.formUrl [("flag", PyVal.bool false)],
        Event.sleep SETTINGS_UPDATE_SLEEP_TIME]) ∧
    dget? [("flag", PyVal.bool false)] "flag" = some (PyVal.bool false) :=
  ⟨rfl, rfl⟩

/-- Counterexample to C2 as stated: after `update_form` the stored
snapshot is NOT the mapping re-parsed from the page returned by the POST —
the state is returned unchanged (the POST response is discarded), so for a
response page parsing to a different mapping the claimed equality fails. -/
theorem c2_counterexample :
    (NsFormUpdater.updateForm updaterC2 []).1 = .ok updaterC2 ∧
    NsFormUpdater.getFormParamsFromHtml pageC2 = .ok [("b", PyVal.str "2")] ∧
    updaterC2.currentParams ≠ some [("b", PyVal.str "2")] :=
  ⟨rfl, rfl, by decide⟩

/-- C2 (amended): `NsFormUpdater.update_form` leaves the stored snapshot
unchanged — it never re-parses the POST response; only
`utils.NsFormSender.send_form` re-parses the response, and what it
captures from it is exactly the freshly rendered localid token. -/
theorem c2_snapshot_not_replaced :
    (∀ (st st' : NsFormUpdater) (p : List (String × PyVal)) (tr : List Event),
        NsFormUpdater.updateForm st p = (.ok st', tr) →
        st'.currentParams = st.currentParams)
    ∧ (∀ (st st' : NsFormSender) (p : List (String × PyVal)) (page : List InputTag)
        (tr : List Event) (fp : List (String × PyVal)),
        NsFormSender.sendForm st p page = (.ok st', tr) →
        NsFormSender.getFormParamsFromHtml page = .ok fp →
        dget? fp "localid" = some st'.localid) := by
  constructor
  · intro st st' p tr h
    unfold NsFormUpdater.updateForm at h
    cases hc : st.currentParams with
    | none => rw [hc] at h; simp at h
    | some cur =>
      rw [hc] at h
      simp at h
      rw [← h.1]
      exact hc
  · intro st st' p page tr fp h hfp
    unfold NsFormSender.sendForm at h
    cases hrs : NsFormSender.refreshSession st page with
    | error e => rw [hrs] at h; simp at h
    | ok st2 =>
      rw [hrs] at h
      simp at h
      unfold NsFormSender.refreshSession at hrs
      rw [hfp] at hrs
      simp at hrs
      cases hl : dget? fp "localid" with
      | none => rw [hl] at hrs; simp at hrs
      | some v =>
        rw [hl] at hrs
        simp at hrs
        rw [← h.1, ← hrs]

/-- Witness for C2 (amended) at concrete inputs: the updater snapshot is
unchanged by `update_form`, and `send_form` stores the localid parsed from
the response page. -/
theorem c2_witness :
    ({ senderC2 with localid := PyVal.str "L2" } : NsFormSender).localid =
      PyVal.str "L2" ∧
    updaterC2.currentParams = updaterC2.currentParams ∧
    dget? [("localid", PyVal.str "L2")] "localid" =
      some ({ senderC2 with localid := PyVal.str "L2" } : NsFormSender).localid :=
  ⟨rfl,
   c2_snapshot_not_replaced.1 updaterC2 updaterC2 []
     [Event.httpPost updaterC2.formUrl [("a", PyVal.str "1")],
      Event.sleep SETTINGS_UPDATE_SLEEP_TIME] rfl,
   c2_snapshot_not_replaced.2 senderC2 { senderC2 with localid := PyVal.str "L2" }
     [] pageC2resp
     [Event.httpPost senderC2.formUrl [("localid", PyVal.none)]]
     [("localid", PyVal.str "L2")] rfl rfl⟩

/-- Counterexample to C3 as stated: on a session where `create_session`
has never run, `update_form` raises the built-in `TypeError` (from
`{**None, ...}`), which is not an application-level error such as the
`SessionError` the claim names — no such class exists in the code. -/
theorem c3_counterexample :
    NsFormUpdater.updateForm (NsFormUpdater.init "ua" NATION_SETTINGS_URL)
        [("flag", PyVal.bool false)] = (.error PyError.typeError, []) ∧
    PyError.isAppError PyError.typeError = false :=
  ⟨rfl, rfl⟩

/-- C3 (amended): on every session whose snapshot is still `None`,
`update_form` always fails — with a `TypeError`, not a `SessionError` —
and performs no network activity at all (never a silent no-op). -/
theorem c3_update_before_create_fails (st : NsFormUpdater)
    (p : List (String × PyVal)) (h : st.currentParams = Option.none) :
    NsFormUpdater.updateForm st p = (.error PyError.typeError, []) := by
  unfold NsFormUpdater.updateForm
  rw [h]

/-- Witness for C3 (amended) on the freshly constructed updater. -/
theorem c3_witness :
    NsFormUpdater.updateForm (NsFormUpdater.init "ua" NATION_SETTINGS_URL) [] =
      (.error PyError.typeError, []) :=
  c3_update_before_create_fails (NsFormUpdater.init "ua" NATION_SETTINGS_URL) [] rfl

/-- Counterexample to C5 as stated: when the X-Pin header is absent,
`login` raises the built-in `KeyError` from the header subscript, which is
not an application-level error such as the `AuthError` the claim names —
no such class exists in the code. -/
theorem c5_counterexample :
    NsApi.login [("Content-Type", "text/html")] =
      .error (PyError.keyError "X-Pin") ∧
    PyError.isAppError (PyError.keyError "X-Pin") = false :=
  ⟨rfl, rfl⟩

/-- C5 (amended): for every login response, a missing X-Pin header makes
`login` fail with `KeyError` (not an `AuthError`, which does not exist in
the code), and a present header makes `login` return its value. -/
theorem c5_login_header (headers : List (String × String)) :
    (dget? headers "X-Pin" = Option.none →
      NsApi.login headers = .error (PyError.keyError "X-Pin"))
    ∧ (∀ pin, dget? headers "X-Pin" = some pin → NsApi.login headers = .ok pin) := by
  constructor
  · intro h
    unfold NsApi.login
    rw [h]
  · intro pin h
    unfold NsApi.login
    rw [h]

/-- Witness for C5 (amended) on concrete headers. -/
theorem c5_witness :
    NsApi.login [("X-Pin", "1234")] = .ok "1234" ∧
    NsApi.login [] = .error (PyError.keyError "X-Pin") :=
  ⟨(c5_login_header [("X-Pin", "1234")]).2 "1234" rfl,
   (c5_login_header []).1 rfl⟩

/-- C7: a puppet group defining neither an inline name list nor a name
file makes `update_puppet_group` fail with the configuration `AppError`
from `get_puppet_names`, with an empty trace — before any login or form
activity. -/
theorem c7_missing_names (cfg : GroupConfig) (name : String) (pup : NsPuppetUpdater)
    (env : Env) (hf : cfg.nation_name_file = Option.none)
    (hn : cfg.nation_names = Option.none) :
    updatePuppetGroup cfg name pup env =
      (.error (.appError ("Puppet group " ++ name ++ " does not have nation names")),
       []) := by
  unfold updatePuppetGroup getPuppetNames
  rw [hf, hn]

/-- Witness for C7 on a concrete group without name sources. -/
theorem c7_witness :
    updatePuppetGroup groupC7 "g" pupC7 envC7 =
      (.error (.appError "Puppet group g does not have nation names"), []) :=
  c7_missing_names groupC7 "g" pupC7 envC7 rfl rfl

/-- C8: every `update_form` call on a Ready session produces exactly the
trace of one POST followed by one sleep of `SETTINGS_UPDATE_SLEEP_TIME`
(which is 6 seconds) before returning — the delay happens exactly once per
call, after the submission. -/
theorem c8_sleep_once_after_post (st : NsFormUpdater)
    (p cur : List (String × PyVal)) (h : st.currentParams = some cur) :
    NsFormUpdater.updateForm st p =
      (.ok st,
       [Event.httpPost st.formUrl ((dictMerge cur p).filter itemNeFalse),
        Event.sleep SETTINGS_UPDATE_SLEEP_TIME]) ∧
    SETTINGS_UPDATE_SLEEP_TIME = 6 := by
  unfold NsFormUpdater.updateForm
  rw [h]
  exact ⟨rfl, rfl⟩

/-- Witness for C8 on a concrete Ready session. -/
theorem c8_witness :
    NsFormUpdater.updateForm updaterC8 [("x", PyVal.str "2")] =
      (.ok updaterC8,
       [Event.httpPost updaterC8.formUrl
          ((dictMerge [("a", PyVal.str "1")] [("x", PyVal.str "2")]).filter itemNeFalse),
        Event.sleep SETTINGS_UPDATE_SLEEP_TIME]) ∧
    SETTINGS_UPDATE_SLEEP_TIME = 6 :=
  c8_sleep_once_after_post updaterC8 [("x", PyVal.str "2")] [("a", PyVal.str "1")] rfl

/-- C9: whenever a group config defines an external name file, the names
are the ones read from that file — whatever inline list is present is
ignored. -/
theorem c9_file_takes_precedence (cfg : GroupConfig) (name path : String) (env : Env)
    (h : cfg.nation_name_file = some path) :
    getPuppetNames cfg name env = .ok (getPuppetNamesFromFile env path) := by
  unfold getPuppetNames
  rw [h]

/-- Witness for C9: a group defining BOTH sources resolves to the file
contents (blank interior line kept), not to the inline list. -/
theorem c9_witness :
    getPuppetNames groupC9 "g" envC9 = .ok ["alice", "", "bob"] ∧
    (["alice", "", "bob"] : List String) ≠ ["inline-only"] := by
  constructor
  · rw [c9_file_takes_precedence groupC9 "g" "names.txt" envC9 rfl]
    rfl
  · decide

theorem countNFU_append (a b : List Event) :
    countNewFormUpdater (a ++ b) = countNewFormUpdater a + countNewFormUpdater b := by
  simp [countNewFormUpdater, List.countP_append]

theorem countNFU_login (pup : NsPuppetUpdater) (n pw : String) (env : Env) :
    countNewFormUpdater (NsPuppetUpdater.login pup n pw env).2 = 0 := by
  unfold NsPuppetUpdater.login
  cases NsApi.login (env.loginHeaders n pw) <;> rfl

theorem countNFU_createSession (st : NsFormUpdater) (pin : PyVal) (env : Env) :
    countNewFormUpdater (NsFormUpdater.createSession st pin env).2 = 0 := by
  unfold NsFormUpdater.createSession
  cases NsFormUpdater.getFormParamsFromHtml (env.settingsPage pin) <;> rfl

theorem countNFU_updateForm (st : NsFormUpdater) (p : List (String × PyVal)) :
    countNewFormUpdater (NsFormUpdater.updateForm st p).2 = 0 := by
  unfold NsFormUpdater.updateForm
  cases st.currentParams <;> rfl

theorem countNFU_updateSettings (pup : NsPuppetUpdater) (s : List (String × PyVal))
    (env : Env) :
    countNewFormUpdater (NsPuppetUpdater.updateSettings pup s env).2 = 0 := by
  unfold NsPuppetUpdater.updateSettings
  rcases hc : NsFormUpdater.createSession pup.formUpdater (pinValOf pup.nationPin) env
    with ⟨res, tr1⟩
  have h1 : countNewFormUpdater tr1 = 0 := by
    have h := countNFU_createSession pup.formUpdater (pinValOf pup.nationPin) env
    rw [hc] at h
    exact h
  cases res with
  | error e => simp [hc, h1]
  | ok st =>
    rcases hu : NsFormUpdater.updateForm st s with ⟨res2, tr2⟩
    have h2 : countNewFormUpdater tr2 = 0 := by
      have h := countNFU_updateForm st s
      rw [hu] at h
      exact h
    cases res2 with
    | error e => simp [hc, hu, countNFU_append, h1, h2]
    | ok st2 => simp [hc, hu, countNFU_append, h1, h2]

theorem countNFU_updateNations (cfg : GroupConfig) (names : List String) :
    ∀ (pup : NsPuppetUpdater) (env : Env),
      countNewFormUpdater (updateNations cfg names pup env).2 = 0 := by
  induction names with
  | nil => intro pup env; rfl
  | cons n rest ih =>
    intro pup env
    simp only [updateNations]
    cases hpw : cfg.password with
    | none => rfl
    | some pw =>
      rcases hl : NsPuppetUpdater.login pup n pw env with ⟨lres, ltr⟩
      have h1 : countNewFormUpdater ltr = 0 := by
        have h := countNFU_login pup n pw env
        rw [hl] at h
        exact h
      cases lres with
      | error e => simp [hl, h1]
      | ok pup2 =>
        cases hs : cfg.new_settings with
        | none =>
          rcases hr : updateNations cfg rest pup2 env with ⟨r, tr2⟩
          have h2 : countNewFormUpdater tr2 = 0 := by
            have h := ih pup2 env
            rw [hr] at h
            exact h
          simp [hl, hs, hr, countNFU_append, h1, h2]
        | some s =>
          rcases hu : NsPuppetUpdater.updateSettings pup2 s env with ⟨ures, utr⟩
          have h2 : countNewFormUpdater utr = 0 := by
            have h := countNFU_updateSettings pup2 s env
            rw [hu] at h
            exact h
          cases ures with
          | error e => simp [hl, hs, hu, countNFU_append, h1, h2]
          | ok pup3 =>
            rcases hr : updateNations cfg rest pup3 env with ⟨r, tr3⟩
            have h3 : countNewFormUpdater tr3 = 0 := by
              have h := ih pup3 env
              rw [hr] at h
              exact h
            simp [hl, hs, hu, hr, countNFU_append, h1, h2, h3]

theorem countNFU_updatePuppetGroup (cfg : GroupConfig) (name : String)
    (pup : NsPuppetUpdater) (env : Env) :
    countNewFormUpdater (updatePuppetGroup cfg name pup env).2 = 0 := by
  unfold updatePuppetGroup
  cases getPuppetNames cfg name env with
  | error e => rfl
  | ok names => exact countNFU_updateNations cfg names pup env

theorem countNFU_updatePuppetGroups (groups : List (String × GroupConfig)) :
    ∀ (pup : NsPuppetUpdater) (env : Env),
      countNewFormUpdater (updatePuppetGroups groups pup env).2 = 0 := by
  induction groups with
  | nil => intro pup env; rfl
  | cons g rest ih =>
    intro pup env
    obtain ⟨name, cfg⟩ := g
    simp only [updatePuppetGroups]
    rcases hg : updatePuppetGroup cfg name pup env with ⟨gres, gtr⟩
    have h1 : countNewFormUpdater gtr = 0 := by
      have h := countNFU_updatePuppetGroup cfg name pup env
      rw [hg] at h
      exact h
    cases gres with
    | error e => simp [hg, h1]
    | ok pup2 =>
      rcases hr : updatePuppetGroups rest pup2 env with ⟨r, tr2⟩
      have h2 : countNewFormUpdater tr2 = 0 := by
        have h := ih pup2 env
        rw [hr] at h
        exact h
      simp [hg, hr, countNFU_append, h1, h2]

/-- Counterexample to C6 as stated: running `main` on a one-group config
with TWO accounts constructs exactly ONE `NsFormUpdater` while performing
two logins — the accounts do not each get a fresh FormSession. -/
theorem c6_counterexample :
    countNewFormUpdater (main configC6 envC6).2 = 1 ∧
    countApiLogin (main configC6 envC6).2 = 2 ∧ (1 : Nat) ≠ 2 :=
  ⟨rfl, rfl, by decide⟩

/-- C6 (amended): `main` always constructs a single `NsFormUpdater` (one
HTTP client with one cookie jar) shared by every group and account, rather
than a fresh one per account; cross-account leakage through
`create_session` is nevertheless impossible because it replaces the cookie
jar and the snapshot wholesale, so the resulting cookie jar and snapshot
are independent of any state left by a previous account. -/
theorem c6_single_shared_session_no_leak :
    (∀ (cfg : Config) (env : Env), countNewFormUpdater (main cfg env).2 = 1)
    ∧ (∀ (st1 st2 : NsFormUpdater) (pin : PyVal) (env : Env)
        (r1 r2 : NsFormUpdater) (tr1 tr2 : List Event),
        NsFormUpdater.createSession st1 pin env = (.ok r1, tr1) →
        NsFormUpdater.createSession st2 pin env = (.ok r2, tr2) →
        r1.cookies = r2.cookies ∧ r1.currentParams = r2.currentParams) := by
  constructor
  · intro cfg env
    unfold main
    rcases hg : updatePuppetGroups cfg.puppets
        { formUpdater := NsFormUpdater.init cfg.userAgent NATION_SETTINGS_URL,
          nationPin := Option.none } env with ⟨r, tr⟩
    have h1 : countNewFormUpdater tr = 0 := by
      have h := countNFU_updatePuppetGroups cfg.puppets
        { formUpdater := NsFormUpdater.init cfg.userAgent NATION_SETTINGS_URL,
          nationPin := Option.none } env
      rw [hg] at h
      exact h
    simp [hg, countNewFormUpdater, List.countP_cons]
    simpa [countNewFormUpdater] using h1
  · intro st1 st2 pin env r1 r2 tr1 tr2 h1 h2
    unfold NsFormUpdater.createSession at h1 h2
    cases hp : NsFormUpdater.getFormParamsFromHtml (env.settingsPage pin) with
    | error e => rw [hp] at h1; simp at h1
    | ok ps =>
      rw [hp] at h1 h2
      simp at h1 h2
      rw [← h1.1, ← h2.1]
      exact ⟨rfl, rfl⟩

/-- Witness for C6 (amended): the single-constructor count on the concrete
two-account run, and `create_session` wiping a stale cookie jar and
snapshot the same way it fills a fresh one. -/
theorem c6_witness :
    countNewFormUpdater (main configC6 envC6).2 = 1 ∧
    (resultUpdaterC6 staleUpdaterC6).cookies = (resultUpdaterC6 freshUpdaterC6).cookies ∧
    (resultUpdaterC6 staleUpdaterC6).currentParams =
      (resultUpdaterC6 freshUpdaterC6).currentParams :=
  ⟨c6_single_shared_session_no_leak.1 configC6 envC6,
   c6_single_shared_session_no_leak.2 staleUpdaterC6 freshUpdaterC6
     (PyVal.str "tok") envC6 (resultUpdaterC6 staleUpdaterC6)
     (resultUpdaterC6 freshUpdaterC6)
     [Event.httpGet staleUpdaterC6.formUrl] [Event.httpGet freshUpdaterC6.formUrl]
     rfl rfl⟩

end NsPuppetmaster
